/-
  Verification of the duration-constrained narration pipeline of
  `pipeline/Step_4_generate_commentary.py`.

  Texts are modelled as `List Char`; Python floats are modelled as exact
  rationals (`ℚ`); the numeric literals appearing in the source (0.8, 150,
  120, 60, 2) are exactly representable, and the quantities compared here
  stay far from float-rounding boundaries.  Python `int()` truncation is
  `pyInt`.  The OpenAI chat call is an external collaborator and is
  modelled as an oracle (`ApiResult`); `random` draws are modelled as an
  oracle stream.  Character classifications (printable / whitespace /
  word) are modelled over the alphabet actually exercised by the pipeline
  (ASCII plus the Arabic block U+0600–U+06FF).
-/
import Mathlib

namespace Step4

/-- Python whitespace (`str.isspace`, regex `\s`) restricted to the ASCII
whitespace characters used by this pipeline: space, TAB, LF, CR, VT, FF. -/
def pyIsSpace (c : Char) : Bool :=
  c = ' ' ∨ c = '\t' ∨ c = '\n' ∨ c = '\r' ∨ c.toNat = 11 ∨ c.toNat = 12

/-- Python `str.strip()`: drop leading and trailing whitespace. -/
def pyStrip (s : List Char) : List Char :=
  ((s.dropWhile pyIsSpace).reverse.dropWhile pyIsSpace).reverse

/-- Auxiliary scanner for Python `str.split()` (split on whitespace runs,
no empty pieces); `acc` is the current word accumulated in reverse. -/
def splitWSAux : List Char → List Char → List (List Char)
  | [], acc => if acc.isEmpty then [] else [acc.reverse]
  | c :: rest, acc =>
    if pyIsSpace c then
      if acc.isEmpty then splitWSAux rest [] else acc.reverse :: splitWSAux rest []
    else splitWSAux rest (c :: acc)

/-- Python `text.split()` with no separator argument. -/
def pySplit (s : List Char) : List (List Char) :=
  splitWSAux s []

/-- Spec-side word counter: the number of maximal whitespace-delimited
runs of non-whitespace characters.  `prevWasSpace` says whether the
previous character (or the start of the string) was a word boundary. -/
def wordStarts : List Char → Bool → Nat
  | [], _ => 0
  | c :: rest, prevWasSpace =>
    (if prevWasSpace ∧ ¬ pyIsSpace c then 1 else 0) + wordStarts rest (pyIsSpace c)

/-- Number of whitespace-delimited words of a text (spec formulation). -/
def countWordsSpec (s : List Char) : Nat :=
  wordStarts s true

/-- Python `text.split(sep)` for a single-character separator: splits at
every occurrence, keeping empty pieces. -/
def splitOnChar (sep : Char) : List Char → List (List Char)
  | [] => [[]]
  | c :: rest =>
    if c = sep then [] :: splitOnChar sep rest
    else match splitOnChar sep rest with
      | [] => [[c]]
      | w :: ws => (c :: w) :: ws

/-- Python `sep.join(pieces)`. -/
def joinWith (sep : List Char) : List (List Char) → List Char
  | [] => []
  | [w] => w
  | w :: ws => w ++ sep ++ joinWith sep ws

/-- Does `s` start with `pat`? -/
def startsWith : List Char → List Char → Bool
  | [], _ => true
  | _ :: _, [] => false
  | p :: ps, c :: cs => p = c ∧ startsWith ps cs

/-- Number of (possibly overlapping) occurrences of `pat` in `s`. -/
def countOcc (pat : List Char) : List Char → Nat
  | [] => 0
  | c :: rest => (if startsWith pat (c :: rest) then 1 else 0) + countOcc pat rest

/-- Fuel-driven core of Python `str.replace(old, new)`: leftmost,
non-overlapping, the replacement text is not rescanned.  All call sites
use a non-empty `old`, and the fuel `s.length` is always sufficient
because each step consumes at least one character of `s`. -/
def replaceAllAux (old new : List Char) : Nat → List Char → List Char
  | _, [] => []
  | 0, s => s
  | fuel + 1, c :: rest =>
    if startsWith old (c :: rest) then
      new ++ replaceAllAux old new fuel (List.drop (old.length - 1) rest)
    else
      c :: replaceAllAux old new fuel rest

/-- Python `s.replace(old, new)` (for non-empty `old`). -/
def replaceAll (old new s : List Char) : List Char :=
  replaceAllAux old new s.length s

/-- The `WPM_RATES` table of `_estimate_speech_duration`
(Step_4_generate_commentary.py lines 170–173). -/
def WPM_RATES : List (String × ℚ) := [("en", 150), ("ur", 120)]

/-- Python `dict.get(key, default)` over an association list. -/
def dictGet (d : List (String × ℚ)) (key : String) (dflt : ℚ) : ℚ :=
  match d.find? (fun p => p.1 == key) with
  | some p => p.2
  | none => dflt

/-- `_estimate_speech_duration(text, language)`
(Step_4_generate_commentary.py lines 157–177):
`(len(text.split()) / WPM_RATES.get(language, 150)) * 60`. -/
def estimateSpeechDuration (text : List Char) (language : String) : ℚ :=
  (((pySplit text).length : ℚ) / dictGet WPM_RATES language 150) * 60

/-- Spec-side rate table: 150 wpm for "en", 120 for "ur", 150 otherwise. -/
def wpmSpec (language : String) : ℚ :=
  if language = "en" then 150 else if language = "ur" then 120 else 150

/-- Python `int()` on a rational: truncation toward zero (`Int.div` on
the reduced numerator and denominator truncates toward zero, and the
denominator of a `ℚ` is positive). -/
def pyInt (q : ℚ) : ℤ :=
  Int.tdiv q.num (q.den : ℤ)

/-- `target_duration = max(video_duration * 0.8, video_duration - 2)`
(Step_4_generate_commentary.py line 187). -/
def targetDuration (videoDuration : ℚ) : ℚ :=
  max (videoDuration * (8/10)) (videoDuration - 2)

/-- `words_per_minute = 120 if selected_language == 'ur' else 150`
(lines 190 and 559). -/
def narrationWpm (language : String) : ℚ :=
  if language = "ur" then 120 else 150

/-- `target_words = int((target_duration / 60) * words_per_minute)`
(line 191, the max-words figure embedded in the narration prompt). -/
def buildTargetWords (videoDuration : ℚ) (language : String) : ℤ :=
  pyInt ((targetDuration videoDuration / 60) * narrationWpm language)

/-- The tightened word budget of the regeneration prompt:
`target_words = int((video_duration * 0.8 / 60) * words_per_minute)`
(line 560) — computed from the VIDEO duration, not from the target
duration. -/
def retryTargetWords (videoDuration : ℚ) (language : String) : ℤ :=
  pyInt ((videoDuration * (8/10) / 60) * narrationWpm language)

/-- The tightened word budget as the spec states it:
`int(targetDuration * 0.8 / 60 * wpm[language])`, 80% of the ORIGINAL
target duration converted through the rate table.  Stated from the
spec's words for comparison with `retryTargetWords`. -/
def specRetryTargetWords (videoDuration : ℚ) (language : String) : ℤ :=
  pyInt (targetDuration videoDuration * (8/10) / 60 * narrationWpm language)

/-- Python `str.isprintable()` restricted to the alphabet exercised here:
false exactly on the C0 controls, DEL and the C1 controls.  (Unicode
format characters outside these ranges do not occur in the inputs
considered.) -/
def pyIsPrintable (c : Char) : Bool :=
  ¬ (c.toNat < 0x20 ∨ (0x7F ≤ c.toNat ∧ c.toNat ≤ 0x9F))

/-- The control-character removal of `_analyze_text_for_narration`
(line 746): keep a character iff it is printable or whitespace. -/
def pyClean (text : List Char) : List Char :=
  text.filter (fun c => pyIsPrintable c ∨ pyIsSpace c)

/-- Is `c` in the Arabic/Urdu Unicode block U+0600–U+06FF
(`'؀' <= c <= 'ۿ'`, line 311)? -/
def isUrduChar (c : Char) : Bool :=
  0x600 ≤ c.toNat ∧ c.toNat ≤ 0x6FF

/-- The Urdu punctuation list `['۔', '،', '؟', '!']` (line 320). -/
def urduPunctuation : List Char := ['۔', '،', '؟', '!']

/-- `_validate_urdu_text` (lines 300–327): the share of Urdu-block
characters among non-whitespace characters must be at least 0.8 and at
least one Urdu punctuation mark must occur.  (`''.join(text.split())`
is exactly the non-whitespace characters of `text`.) -/
def validateUrduText (text : List Char) : Bool :=
  if ((text.filter isUrduChar).length : ℚ) /
      ((text.filter (fun c => !(pyIsSpace c))).length : ℚ) < 8/10 then false
  else urduPunctuation.any (fun m => text.contains m)

/-- The character class counted by `_validate_english_text` (line 340):
ASCII and (alphabetic or whitespace or one of `.,!?'"-`). -/
def isEnglishCounted (c : Char) : Bool :=
  c.toNat < 128 ∧
    (c.isAlpha ∨ pyIsSpace c ∨ c ∈ ['.', ',', '!', '?', '\'', '"', '-'])

/-- `_validate_english_text` (lines 329–360): the counted-class share of
ALL characters must be at least 0.8, the period-split sentence list must
have a non-blank entry, and one of `. , ! ?` must occur. -/
def validateEnglishText (text : List Char) : Bool :=
  if ((text.filter isEnglishCounted).length : ℚ) / (text.length : ℚ) < 8/10 then
    false
  else if (((splitOnChar '.' text).map pyStrip).filter
      (fun s => !s.isEmpty)).isEmpty then false
  else ['.', ',', '!', '?'].any (fun m => text.contains m)

/-- The validation predicate as claim C6 states it: after control
stripping the text is non-blank, the in-script fraction (Urdu block for
"ur", ASCII ALPHABETIC for Latin-script languages) out of all
non-whitespace characters is at least 0.8, and one of the language's
punctuation marks occurs.  Stated from the claim's words for comparison
with the validators above. -/
def claimValidates (language : String) (text : List Char) : Bool :=
  let cleaned := pyClean text
  let inScript := if language = "ur" then isUrduChar
    else fun c => c.toNat < 128 ∧ c.isAlpha
  let punct := if language = "ur" then urduPunctuation else ['.', ',', '!', '?']
  let nonWS := (cleaned.filter (fun c => !(pyIsSpace c))).length
  ¬ (pyStrip cleaned).isEmpty ∧
    8/10 ≤ ((cleaned.filter inScript).length : ℚ) / (nonWS : ℚ) ∧
    punct.any (fun m => cleaned.contains m)

/-- `_add_narration_tags` (lines 362–397): SSML break/prosody/lang tags
for Urdu; ellipsis pauses plus a printable filter for everything else. -/
def addNarrationTags (text : List Char) (language : String) : List Char :=
  if language = "ur" then
    let t := replaceAll "۔".toList "۔<break time=\"1s\"/>".toList text
    let t := replaceAll "،".toList "،<break time=\"0.5s\"/>".toList t
    let t := replaceAll "!".toList "!<break time=\"0.8s\"/>".toList t
    let t := replaceAll "؟".toList "؟<break time=\"0.8s\"/>".toList t
    let t := "<prosody rate=\"1.2\" pitch=\"+2st\">".toList ++ t ++ "</prosody>".toList
    "<lang xml:lang=\"ur-PK\">".toList ++ t ++ "</lang>".toList
  else
    let t := replaceAll ". ".toList "... ".toList text
    let t := replaceAll "! ".toList "... ".toList t
    let t := replaceAll "? ".toList "... ".toList t
    let t := replaceAll ", ".toList ", ".toList t
    t.filter (fun c => pyIsPrintable c ∨ pyIsSpace c)

/-- `_analyze_text_for_narration` (lines 736–786): strip control
characters, reject blank text, run the language validator, then add the
narration tags.  Returns `(ok, text-or-error-message)` exactly as the
Python function returns `Tuple[bool, str]`. -/
def analyzeTextForNarration (text : List Char) (language : String) :
    Bool × List Char :=
  let cleaned := pyClean text
  if (pyStrip cleaned).isEmpty then
    (false, "Empty text after cleaning".toList)
  else if language = "ur" then
    if ¬ validateUrduText cleaned then (false, "Invalid Urdu text format".toList)
    else (true, addNarrationTags cleaned "ur")
  else
    if ¬ validateEnglishText cleaned then (false, "Invalid English text format".toList)
    else (true, addNarrationTags cleaned "en")

/-- Outcome of one `client.chat.completions.create` call: a raised
transport/provider exception, a completion with no choices (the
`not completion or not completion.choices` test), or a message whose
`content` is `None` or a string. -/
inductive ApiResult where
  | transportError : ApiResult
  | noChoices : ApiResult
  | message : Option (List Char) → ApiResult

/-- The commentary dictionary built at lines 589–597 (the fields the
claims are about; `style` and `metadata` are copied through verbatim). -/
structure Commentary where
  commentary : List Char
  estimated_duration : ℚ
  word_count : Nat
  language : String
  is_narration_optimized : Bool
  deriving DecidableEq, Repr

/-- Observable outcome of one `generate_commentary` run: the returned
value (`None` on every failure path), how many times the external model
was invoked, and how many times the output file was written. -/
structure RunOutcome where
  result : Option Commentary
  modelCalls : Nat
  fileWrites : Nat
  deriving DecidableEq, Repr

/-- Does the first model call produce a validated text whose estimated
spoken duration exceeds the video duration?  This is exactly the
condition under which line 555 triggers the single regeneration. -/
def retryTriggered (videoDuration : ℚ) (language : String)
    (call1 : ApiResult) : Bool :=
  match call1 with
  | .message (some t) =>
    !(pyStrip t).isEmpty && (analyzeTextForNarration t language).1 &&
      decide (videoDuration < estimateSpeechDuration
        (analyzeTextForNarration t language).2 language)
  | _ => false

/-- `generate_commentary` (lines 513–607), with the two chat-completion
calls supplied by the oracle arguments `call1` and `call2`.

Failure paths returning `None`: a raised first call (line 524), a first
completion without choices (line 529), a `None` or blank first content
(line 534), validation failure (line 545), a raised second call
(line 585), a second completion without choices (line 579), and a `None`
second content (`None.split()` raises `AttributeError` inside the
`try`, caught at line 605).  On the regeneration path the raw second
content is used directly — it is neither re-validated nor cleaned
(lines 583–584).  The output file is written only at line 600, right
before the successful return. -/
def generateCommentary (videoDuration : ℚ) (language : String)
    (call1 call2 : ApiResult) : RunOutcome :=
  match call1 with
  | .transportError => ⟨none, 1, 0⟩
  | .noChoices => ⟨none, 1, 0⟩
  | .message content =>
    match content with
    | none => ⟨none, 1, 0⟩
    | some raw =>
      if (pyStrip raw).isEmpty then ⟨none, 1, 0⟩
      else
        let analyzed := analyzeTextForNarration raw language
        if ¬ analyzed.1 then ⟨none, 1, 0⟩
        else
          let commentaryText := analyzed.2
          let estimated := estimateSpeechDuration commentaryText language
          if videoDuration < estimated then
            match call2 with
            | .transportError => ⟨none, 2, 0⟩
            | .noChoices => ⟨none, 2, 0⟩
            | .message none => ⟨none, 2, 0⟩
            | .message (some raw2) =>
              let estimated2 := estimateSpeechDuration raw2 language
              ⟨some { commentary := raw2
                      estimated_duration := estimated2
                      word_count := (pySplit raw2).length
                      language := language
                      is_narration_optimized := true }, 2, 1⟩
          else
            ⟨some { commentary := commentaryText
                    estimated_duration := estimated
                    word_count := (pySplit commentaryText).length
                    language := language
                    is_narration_optimized := true }, 1, 1⟩

/-- The commentary styles of the `CommentaryStyle` enum (lines 19–25). -/
inductive Style where
  | documentary | energetic | analytical | storyteller | urdu
  deriving DecidableEq, Repr

/-- Per-style speech-pattern data of `format_for_audio`
(`style_patterns`, lines 643–674). -/
structure StyleConfig where
  fillers : List (List Char)
  transitions : List (List Char)
  emphasis : List (List Char)
  pauseFreq : ℚ

/-- `style_patterns[self.style]` (lines 643–676). -/
def styleConfigOf : Style → StyleConfig
  | .documentary =>
    { fillers := (["You know what...", "Check this out...", "Oh wow...",
        "Look at that...", "This is fascinating..."]).map String.toList
      transitions := (["And here's the amazing part...", "Now watch this...",
        "See how..."]).map String.toList
      emphasis := (["absolutely", "incredibly", "fascinating",
        "remarkable"]).map String.toList
      pauseFreq := 4/10 }
  | .energetic =>
    { fillers := (["Oh my gosh...", "This is insane...", "I can't even...",
        "Just wait...", "Are you seeing this..."]).map String.toList
      transitions := (["But wait there's more...", "And then...",
        "This is the best part..."]).map String.toList
      emphasis := (["literally", "absolutely", "totally",
        "completely"]).map String.toList
      pauseFreq := 2/10 }
  | .analytical =>
    { fillers := (["Interestingly...", "You see...", "What's fascinating here...",
        "Notice how..."]).map String.toList
      transitions := (["Let's look at this...", "Here's what's happening...",
        "The key detail is..."]).map String.toList
      emphasis := (["particularly", "specifically", "notably",
        "precisely"]).map String.toList
      pauseFreq := 5/10 }
  | .storyteller =>
    { fillers := (["You know...", "Picture this...", "Here's the thing...",
        "Imagine..."]).map String.toList
      transitions := (["And this is where...", "That's when...",
        "The beautiful part is..."]).map String.toList
      emphasis := (["magical", "wonderful", "touching",
        "heartwarming"]).map String.toList
      pauseFreq := 3/10 }
  | .urdu =>
    { fillers := (["دیکھیں...", "ارے واہ...", "سنیں تو...",
        "کیا بات ہے..."]).map String.toList
      transitions := (["اور پھر...", "اس کے بعد...",
        "سب سے اچھی بات..."]).map String.toList
      emphasis := (["بالکل", "یقیناً", "واقعی", "بےحد"]).map String.toList
      pauseFreq := 3/10 }

/-- Regex `\w` over the alphabet exercised here: ASCII alphanumerics,
underscore, and the Arabic block. -/
def reWordChar (c : Char) : Bool :=
  c.isAlphanum ∨ c = '_' ∨ isUrduChar c

/-- The character class kept by the first filter of `format_for_audio`
(line 639, `re.sub(r'[^\w\s,.!?;:()\-\'\"]+', '', text)`). -/
def reKeepChar (c : Char) : Bool :=
  reWordChar c ∨ pyIsSpace c ∨
    c ∈ [',', '.', '!', '?', ';', ':', '(', ')', '-', '\'', '"']

/-- `re.sub(r'\s+', ' ', text)`: each whitespace run becomes one space. -/
def collapseWSAux : List Char → Bool → List Char
  | [], _ => []
  | c :: rest, prevWS =>
    if pyIsSpace c then
      if prevWS then collapseWSAux rest true else ' ' :: collapseWSAux rest true
    else c :: collapseWSAux rest false

/-- Whitespace-run normalization (lines 640 and 732). -/
def collapseWS (s : List Char) : List Char :=
  collapseWSAux s false

/-- The literal pause markers inserted by `format_for_audio`. -/
def brk02 : List Char := "<break time=\"0.2s\"/>".toList

def brk03 : List Char := "<break time=\"0.3s\"/>".toList

def brk04 : List Char := "<break time=\"0.4s\"/>".toList

def brkOpen : List Char := "<break".toList

/-- Randomness oracle: `draws` are the successive `random.random()`
values (rationals in `[0,1)` in real runs), `picks` feed
`random.choice` / `random.randint` selections. -/
structure Rng where
  draws : Nat → ℚ
  picks : Nat → Nat

/-- An oracle on which no probabilistic branch fires (every draw is 1,
at least every threshold). -/
def rngOne : Rng := ⟨fun _ => 1, fun _ => 0⟩

/-- `random.choice(l)` driven by a pick value. -/
def pyChoice (l : List (List Char)) (k : Nat) : List Char :=
  l.getD (k % l.length) []

/-- Python `list.insert(pos, x)` (insert before index `pos`). -/
def pyInsert {α : Type} : Nat → α → List α → List α
  | 0, x, l => x :: l
  | _ + 1, x, [] => [x]
  | n + 1, x, a :: l => a :: pyInsert n x l

/-- The per-sentence enhancement of `format_for_audio` (lines 682–712)
for the sentence at enumeration index `i`; `ri`/`pi` are the positions
reached in the draw and pick streams, threaded in evaluation order. -/
def enhanceSentence (cfg : StyleConfig) (rng : Rng) (i : Nat)
    (s0 : List Char) (ri pi : Nat) : List Char × Nat × Nat :=
  let s := pyStrip s0
  -- filler (line 689): `if i > 0 and random.random() < 0.3`
  let step1 : List Char × Nat × Nat :=
    if 0 < i then
      if rng.draws ri < 3/10 then
        (pyChoice cfg.fillers (rng.picks pi) ++ ' ' :: s, ri + 1, pi + 1)
      else (s, ri + 1, pi)
    else (s, ri, pi)
  let s := step1.1; let ri := step1.2.1; let pi := step1.2.2
  -- transition (line 693): `if i > 1 and random.random() < 0.25`
  let step2 : List Char × Nat × Nat :=
    if 1 < i then
      if rng.draws ri < 1/4 then
        (pyChoice cfg.transitions (rng.picks pi) ++ ' ' :: s, ri + 1, pi + 1)
      else (s, ri + 1, pi)
    else (s, ri, pi)
  let s := step2.1; let ri := step2.2.1; let pi := step2.2.2
  -- emphasis insertion (lines 697–703): draw always consumed; the choice
  -- pick is consumed when the draw fires; randint only when > 4 words
  let step3 : List Char × Nat × Nat :=
    if rng.draws ri < 1/5 then
      let e := pyChoice cfg.emphasis (rng.picks pi)
      let ws := pySplit s
      if 4 < ws.length then
        let pos := 2 + rng.picks (pi + 1) % (ws.length - 3)
        (joinWith [' '] (pyInsert pos e ws), ri + 1, pi + 2)
      else (s, ri + 1, pi + 1)
    else (s, ri + 1, pi)
  let s := step3.1; let ri := step3.2.1; let pi := step3.2.2
  -- midpoint pause (lines 706–710): draw consumed only when > 6 words
  let step4 : List Char × Nat × Nat :=
    let ws := pySplit s
    if 6 < ws.length then
      if rng.draws ri < cfg.pauseFreq then
        (joinWith [' '] (pyInsert (ws.length / 2) brk02 ws), ri + 1, pi)
      else (s, ri + 1, pi)
    else (s, ri, pi)
  step4

/-- The `for i, sentence in enumerate(sentences)` loop (lines 682–712):
blank sentences are skipped but still advance the index. -/
def processSentences (cfg : StyleConfig) (rng : Rng) :
    List (List Char) → Nat → Nat → Nat → List (List Char)
  | [], _, _, _ => []
  | s :: rest, i, ri, pi =>
    if (pyStrip s).isEmpty then processSentences cfg rng rest (i + 1) ri pi
    else
      let r := enhanceSentence cfg rng i s ri pi
      r.1 :: processSentences cfg rng rest (i + 1) r.2.1 r.2.2

/-- One pass of `re.sub` for a pattern `([c1c2…])\s` with replacement
`\1 ++ " " ++ marker ++ " "` (lines 718–724): leftmost, non-overlapping,
scanning resumes after the matched whitespace character. -/
def subPunctClass (cls : List Char) (marker : List Char) :
    List Char → List Char
  | [] => []
  | [c] => [c]
  | c :: d :: rest =>
    if c ∈ cls ∧ pyIsSpace d then
      (c :: ' ' :: marker ++ [' ']) ++ subPunctClass cls marker rest
    else c :: subPunctClass cls marker (d :: rest)

/-- `re.sub(r'\.\.\.\s', '... <break time="0.3s"/> ', text)` (line 720). -/
def subEllipsis : List Char → List Char
  | c1 :: c2 :: c3 :: c4 :: rest =>
    if c1 = '.' ∧ c2 = '.' ∧ c3 = '.' ∧ pyIsSpace c4 then
      ('.' :: '.' :: '.' :: ' ' :: brk03) ++ (' ' :: subEllipsis rest)
    else c1 :: subEllipsis (c2 :: c3 :: c4 :: rest)
  | s => s

/-- Word-boundary test after a candidate match of `w`. -/
def boundaryAfter (w s : List Char) : Bool :=
  match List.drop w.length s with
  | [] => true
  | d :: _ => ¬ reWordChar d

/-- Fuel-driven core of `re.sub(rf'\b{w}\b', rep, text)`: `prev` is the
character preceding the scan position in the original string (`none` at
the start); all call sites use non-empty alphabetic `w`, so the fuel
`s.length` suffices. -/
def subWordAux (w rep : List Char) : Nat → Option Char → List Char → List Char
  | _, _, [] => []
  | 0, _, s => s
  | fuel + 1, prev, c :: rest =>
    let prevOk := match prev with
      | none => true
      | some p => ¬ reWordChar p
    if prevOk && startsWith w (c :: rest) && boundaryAfter w (c :: rest) then
      rep ++ subWordAux w rep fuel w.getLast? (List.drop w.length (c :: rest))
    else c :: subWordAux w rep fuel (some c) rest

/-- The emphasis-wrapping pass (lines 727–728): each whole-word
occurrence of an emphasis vocabulary word is wrapped in an
`<emphasis level="strong">…</emphasis>` marker. -/
def subWordBound (w s : List Char) : List Char :=
  subWordAux w
    ("<emphasis level=\"strong\">".toList ++ w ++ "</emphasis>".toList)
    s.length none s

/-- Match `<break[^>]+>` at the head of `s`; on success return the rest. -/
def matchBreakTag (s : List Char) : Option (List Char) :=
  if startsWith brkOpen s then
    let rest := List.drop 6 s
    let inner := rest.takeWhile (fun c => c ≠ '>')
    if inner.isEmpty then none
    else
      match List.drop inner.length rest with
      | '>' :: r => some r
      | _ => none
  else none

/-- Try to match `\s*<break[^>]+>\s*<break[^>]+>\s*` at the head of `s`;
on success return the remainder after the match. -/
def tryCollapseAt (s : List Char) : Option (List Char) :=
  match matchBreakTag (s.dropWhile pyIsSpace) with
  | none => none
  | some r2 =>
    match matchBreakTag (r2.dropWhile pyIsSpace) with
    | none => none
    | some r4 => some (r4.dropWhile pyIsSpace)

/-- Fuel-driven scan of `re.sub(r'\s*<break[^>]+>\s*<break[^>]+>\s*',
' <break time="0.4s"/> ', text)` (line 731); each match consumes at
least the two tags, so fuel `s.length` suffices. -/
def collapseBreaksAux : Nat → List Char → List Char
  | _, [] => []
  | 0, s => s
  | fuel + 1, c :: rest =>
    match tryCollapseAt (c :: rest) with
    | some r => (' ' :: brk04 ++ [' ']) ++ collapseBreaksAux fuel r
    | none => c :: collapseBreaksAux fuel rest

/-- The duplicate-break collapse pass (line 731). -/
def collapseBreaks (s : List Char) : List Char :=
  collapseBreaksAux s.length s

/-- `format_for_audio` (lines 626–734) on the commentary text, with the
`random` module abstracted as the oracle `rng`. -/
def formatForAudio (style : Style) (rng : Rng) (text : List Char) :
    List Char :=
  let cfg := styleConfigOf style
  let t := text.filter reKeepChar
  let t := collapseWS t
  let enhanced := processSentences cfg rng (splitOnChar '.' t) 0 0 0
  let t := joinWith ". ".toList enhanced
  let t := subPunctClass [',', ';'] brk02 t
  let t := subPunctClass ['.', '!', '?'] brk04 t
  let t := subEllipsis t
  let t := subPunctClass ['!'] brk02 t
  let t := subPunctClass ['?'] brk03 t
  let t := cfg.emphasis.foldl (fun acc w => subWordBound w acc) t
  let t := collapseBreaks t
  let t := collapseWS t
  pyStrip t

/-- Concrete first-call response for an 8-second English video: 25
words, so its estimated spoken duration is 25/150·60 = 10 s > 8 s and
the tightened regeneration is triggered. -/
def longText1 : List Char := String.toList
  "This video shows many wonderful things that everyone watching will surely enjoy from the very first moment until the very last second of the clip."

/-- Concrete regeneration response: 26 words, estimated duration
26/150·60 = 10.4 s, still exceeding the 8-second video. -/
def longText2 : List Char := String.toList
  "The scene keeps moving quickly while many people watch with great joy and the colors stay bright through every single part of this lovely recording today."

/-- Concrete regeneration response containing a BEL control character,
which the validator's cleaning pass would strip. -/
def ctrlText : List Char := String.toList "Bad\x07 text."

/-- Concrete raw commentary used to exercise the formatter. -/
def c8raw : List Char := "Great work. Nice job. Done.".toList

/-- An already-formatted text: the formatter's output on `c8raw` (its
markers are intact SSML break tags). -/
def c8formatted : List Char := formatForAudio .documentary rngOne c8raw

set_option maxRecDepth 10000

theorem splitWSAux_length (s : List Char) :
    ∀ acc, (splitWSAux s acc).length =
      wordStarts s acc.isEmpty + (if acc.isEmpty then 0 else 1) := by
  induction s with
  | nil =>
    intro acc
    cases acc <;> simp [splitWSAux, wordStarts]
  | cons c rest ih =>
    intro acc
    by_cases hc : pyIsSpace c = true
    · cases acc with
      | nil => simp [splitWSAux, wordStarts, hc, ih]
      | cons a as => simp [splitWSAux, wordStarts, hc, ih, Nat.add_comm]
    · have hc' : pyIsSpace c = false := by simpa using hc
      cases acc with
      | nil => simp [splitWSAux, wordStarts, hc', ih, Nat.add_comm]
      | cons a as => simp [splitWSAux, wordStarts, hc', ih, Nat.add_comm]

/-- The length of Python's `text.split()` is the spec-side word count. -/
theorem pySplit_length (s : List Char) :
    (pySplit s).length = countWordsSpec s := by
  simpa [pySplit, countWordsSpec] using splitWSAux_length s []

/-- The `WPM_RATES.get(language, 150)` lookup agrees with the spec-side
rate table (150 for "en", 120 for "ur", 150 for any other code). -/
theorem dictGet_wpm (l : String) : dictGet WPM_RATES l 150 = wpmSpec l := by
  by_cases h1 : l = "en"
  · subst h1; rfl
  · by_cases h2 : l = "ur"
    · subst h2; rfl
    · have e1 : ("en" == l) = false := beq_eq_false_iff_ne.mpr (Ne.symm h1)
      have e2 : ("ur" == l) = false := beq_eq_false_iff_ne.mpr (Ne.symm h2)
      simp [dictGet, WPM_RATES, wpmSpec, List.find?, h1, h2, e1, e2]

/-- The `120 if selected_language == 'ur' else 150` rate of the prompt
builder agrees with the `WPM_RATES` table of the duration estimator. -/
theorem narrationWpm_eq_dictGet (l : String) :
    narrationWpm l = dictGet WPM_RATES l 150 := by
  rw [dictGet_wpm]
  by_cases h1 : l = "en"
  · subst h1; rfl
  · by_cases h2 : l = "ur"
    · subst h2; rfl
    · simp [narrationWpm, wpmSpec, h1, h2]

/-- If a text is non-blank after stripping, it has a character that is
not whitespace. -/
theorem dropWhile_ne_nil_filter_pos (s : List Char)
    (h : s.dropWhile pyIsSpace ≠ []) :
    0 < (s.filter (fun c => !(pyIsSpace c))).length := by
  obtain ⟨x, hxmem, hx⟩ : ∃ x ∈ s, pyIsSpace x = false := by
    simpa [List.dropWhile_eq_nil_iff] using h
  have hmem : x ∈ s.filter (fun c => !(pyIsSpace c)) :=
    List.mem_filter.mpr ⟨hxmem, by simp [hx]⟩
  exact List.length_pos.mpr (List.ne_nil_of_mem hmem)

/-- C4. For every text and language code, `_estimate_speech_duration`
returns (whitespace-delimited word count / wpm) · 60 with the rate table
en ↦ 150, ur ↦ 120, default 150, and the empty text yields exactly 0. -/
theorem claim4_estimate_duration_spec (text : List Char) (lang : String) :
    estimateSpeechDuration text lang =
      ((countWordsSpec text : ℚ) / wpmSpec lang) * 60 ∧
    estimateSpeechDuration [] lang = 0 := by
  constructor
  · rw [estimateSpeechDuration, pySplit_length, dictGet_wpm]
  · simp [estimateSpeechDuration, pySplit, splitWSAux]

/-- C5. For every video duration `d ≥ 0` the prompt builder's target
duration `max(0.8·d, d − 2)` never exceeds `d`; its word budget uses the
same per-language rate table as the duration estimator; and for the
8-second English video the target duration is 6.4 s with a 16-word
budget. -/
theorem claim5_target_duration_budget (d : ℚ) (h : 0 ≤ d) :
    targetDuration d ≤ d ∧
    (∀ l, narrationWpm l = dictGet WPM_RATES l 150) ∧
    targetDuration 8 = 32/5 ∧
    buildTargetWords 8 "en" = 16 := by
  refine ⟨?_, narrationWpm_eq_dictGet, ?_, ?_⟩
  · exact max_le (mul_le_of_le_one_right h (by norm_num))
      (sub_le_self d (by norm_num))
  · exact of_decide_eq_true (by with_unfolding_all rfl)
  · exact of_decide_eq_true (by with_unfolding_all rfl)

/-- Witness for C5 at the concrete duration 8. -/
theorem claim5_witness :
    (0 : ℚ) ≤ 8 ∧
    (targetDuration 8 ≤ 8 ∧
      (∀ l, narrationWpm l = dictGet WPM_RATES l 150) ∧
      targetDuration 8 = 32/5 ∧
      buildTargetWords 8 "en" = 16) :=
  ⟨by norm_num, claim5_target_duration_budget 8 (by norm_num)⟩

/-- C1. The tightened regeneration budget computed at line 560 for the
8-second English video is 16 words — identical to the original 16-word
budget, so nothing is reduced — whereas the spec's formula
`int(targetDuration · 0.8 / 60 · wpm)` gives 12 words.  The code
contradicts its own `Reduce target words by 20%` comment (line 558). -/
theorem claim1_retry_budget_is_video_based :
    retryTargetWords 8 "en" = 16 ∧
    specRetryTargetWords 8 "en" = 12 ∧
    buildTargetWords 8 "en" = 16 :=
  of_decide_eq_true (by with_unfolding_all rfl)

/-- C2 counterexample. Concrete 8-second English run in which the first
candidate estimates to 10 s and the tightened regeneration still
estimates to 10.4 s > 8 s: the run returns a result, but its
`is_narration_optimized` flag is `true`, not the `false` the claim
requires (line 596 hardcodes `True`). -/
theorem claim2_counterexample :
    generateCommentary 8 "en" (ApiResult.message (some longText1))
        (ApiResult.message (some longText2)) =
      ⟨some { commentary := longText2
              estimated_duration := 52/5
              word_count := 26
              language := "en"
              is_narration_optimized := true }, 2, 1⟩ ∧
    (8 : ℚ) < 52/5 :=
  of_decide_eq_true (by with_unfolding_all rfl)

/-- C2 (amended). When the validated first candidate overruns the video
duration, the run performs the single regeneration and still returns a
result — no further looping — whose commentary text is the raw second
response and whose `is_narration_optimized` flag is `true` (the code
never sets it to false), regardless of whether the retry still
overruns. -/
theorem claim2_retry_returns_flag_true (d : ℚ) (lang : String)
    (t1 t2 : List Char)
    (h1 : (pyStrip t1).isEmpty = false)
    (h2 : (analyzeTextForNarration t1 lang).1 = true)
    (h3 : d < estimateSpeechDuration (analyzeTextForNarration t1 lang).2 lang) :
    generateCommentary d lang (.message (some t1)) (.message (some t2)) =
      ⟨some { commentary := t2
              estimated_duration := estimateSpeechDuration t2 lang
              word_count := (pySplit t2).length
              language := lang
              is_narration_optimized := true }, 2, 1⟩ := by
  simp [generateCommentary, h1, h2, h3]

/-- Witness for C2 (amended) at the concrete 8-second English run. -/
theorem claim2_witness :
    ((pyStrip longText1).isEmpty = false ∧
     (analyzeTextForNarration longText1 "en").1 = true ∧
     (8 : ℚ) < estimateSpeechDuration
       (analyzeTextForNarration longText1 "en").2 "en") ∧
    generateCommentary 8 "en" (.message (some longText1))
        (.message (some longText2)) =
      ⟨some { commentary := longText2
              estimated_duration := estimateSpeechDuration longText2 "en"
              word_count := (pySplit longText2).length
              language := "en"
              is_narration_optimized := true }, 2, 1⟩ :=
  ⟨⟨of_decide_eq_true (by with_unfolding_all rfl),
    of_decide_eq_true (by with_unfolding_all rfl),
    of_decide_eq_true (by with_unfolding_all rfl)⟩,
   claim2_retry_returns_flag_true 8 "en" longText1 longText2
     (of_decide_eq_true (by with_unfolding_all rfl))
     (of_decide_eq_true (by with_unfolding_all rfl))
     (of_decide_eq_true (by with_unfolding_all rfl))⟩

/-- C3 counterexample. Concrete retry run whose second response contains
a BEL control character: the returned commentary is that raw response —
it differs from its control-character-stripped form, so the result does
NOT carry the cleaned text on the regeneration path. -/
theorem claim3_counterexample :
    (generateCommentary 8 "en" (.message (some longText1))
        (.message (some ctrlText))).result.map
      (fun r => decide (r.commentary = pyClean r.commentary)) = some false :=
  of_decide_eq_true (by with_unfolding_all rfl)

/-- C3 (amended). On the no-retry path the returned commentary text is
the validated, cleaned (and narration-tagged) text produced by
`_analyze_text_for_narration`; on the regeneration path it is the raw
second model response, used without re-validation or cleaning. -/
theorem claim3_commentary_text_paths (d : ℚ) (lang : String)
    (t1 t2 : List Char) (r2 : ApiResult)
    (h1 : (pyStrip t1).isEmpty = false)
    (h2 : (analyzeTextForNarration t1 lang).1 = true) :
    (estimateSpeechDuration (analyzeTextForNarration t1 lang).2 lang ≤ d →
      (generateCommentary d lang (.message (some t1)) r2).result.map
        (fun r => r.commentary) = some (analyzeTextForNarration t1 lang).2) ∧
    (d < estimateSpeechDuration (analyzeTextForNarration t1 lang).2 lang →
      (generateCommentary d lang (.message (some t1))
          (.message (some t2))).result.map
        (fun r => r.commentary) = some t2) := by
  constructor
  · intro hle
    simp [generateCommentary, h1, h2, not_lt.mpr hle]
  · intro hlt
    simp [generateCommentary, h1, h2, hlt]

/-- Witness for C3 (amended): a 100-second video accepts the first
candidate, whose returned text is the analyzer's cleaned output. -/
theorem claim3_witness :
    ((pyStrip longText1).isEmpty = false ∧
     (analyzeTextForNarration longText1 "en").1 = true) ∧
    ((estimateSpeechDuration (analyzeTextForNarration longText1 "en").2 "en" ≤ 100 →
      (generateCommentary 100 "en" (.message (some longText1))
          ApiResult.transportError).result.map
        (fun r => r.commentary) = some (analyzeTextForNarration longText1 "en").2) ∧
     (100 < estimateSpeechDuration (analyzeTextForNarration longText1 "en").2 "en" →
      (generateCommentary 100 "en" (.message (some longText1))
          (.message (some longText2))).result.map
        (fun r => r.commentary) = some longText2)) :=
  ⟨⟨of_decide_eq_true (by with_unfolding_all rfl),
    of_decide_eq_true (by with_unfolding_all rfl)⟩,
   claim3_commentary_text_paths 100 "en" longText1 longText2
     ApiResult.transportError
     (of_decide_eq_true (by with_unfolding_all rfl))
     (of_decide_eq_true (by with_unfolding_all rfl))⟩

/-- C6 counterexample. For the English text `"abc!"` the code's
validator succeeds (its counted class includes punctuation and its
divisor is the full length), while the claim's criterion — ASCII
ALPHABETIC characters out of non-whitespace characters at ratio ≥ 0.8 —
fails (3/4 < 0.8).  So validation success is NOT equivalent to the
claim's conditions. -/
theorem claim6_counterexample :
    (analyzeTextForNarration ("abc!".toList) "en").1 = true ∧
    validateEnglishText ("abc!".toList) = true ∧
    claimValidates "en" ("abc!".toList) = false :=
  of_decide_eq_true (by with_unfolding_all rfl)

/-- C6 (amended). For non-blank text: the Urdu validator succeeds iff
the Urdu-block fraction of non-whitespace characters is at least 0.8
and an Urdu punctuation mark occurs (as the claim states); the English
validator instead succeeds iff the fraction of characters that are
ASCII alphabetic, whitespace, or one of `.,!?'"-` out of ALL characters
is at least 0.8, some period-split sentence is non-blank, and one of
`. , ! ?` occurs.  The non-blank hypothesis restricts the statement to
the domain on which the Python validators are actually invoked (where
their ratio divisions cannot raise `ZeroDivisionError`). -/
theorem claim6_validator_characterization (text : List Char)
    (_h : ¬ (pyStrip text).isEmpty) :
    (validateUrduText text = true ↔
      ((8/10 : ℚ) ≤ ((text.filter isUrduChar).length : ℚ) /
          (((text.filter (fun c => !(pyIsSpace c))).length : ℚ)) ∧
        urduPunctuation.any (fun m => text.contains m) = true)) ∧
    (validateEnglishText text = true ↔
      ((8/10 : ℚ) ≤ ((text.filter isEnglishCounted).length : ℚ) /
          ((text.length : ℚ)) ∧
        (((splitOnChar '.' text).map pyStrip).filter
          (fun s => !s.isEmpty)).isEmpty = false ∧
        (['.', ',', '!', '?'].any (fun m => text.contains m)) = true)) := by
  constructor
  · rw [validateUrduText]
    split_ifs with hr
    · simp only [false_iff, not_and]
      intro hle
      exact absurd hr (not_lt.mpr hle)
    · simp [not_lt.mp hr]
  · rw [validateEnglishText]
    split_ifs with hr hs
    · simp only [false_iff, not_and]
      intro hle
      exact absurd hr (not_lt.mpr hle)
    · simp only [false_iff, not_and]
      intro _ habs
      rw [hs] at habs
      cases habs
    · simp [not_lt.mp hr, hs]

/-- Witness for C6 (amended) at the concrete non-blank text `"abc."`. -/
theorem claim6_witness :
    (¬ (pyStrip ("abc.".toList)).isEmpty) ∧
    ((validateUrduText ("abc.".toList) = true ↔
      ((8/10 : ℚ) ≤ ((("abc.".toList).filter isUrduChar).length : ℚ) /
          (((("abc.".toList).filter (fun c => !(pyIsSpace c))).length : ℚ)) ∧
        urduPunctuation.any (fun m => ("abc.".toList).contains m) = true)) ∧
    (validateEnglishText ("abc.".toList) = true ↔
      ((8/10 : ℚ) ≤ ((("abc.".toList).filter isEnglishCounted).length : ℚ) /
          ((("abc.".toList).length : ℚ)) ∧
        (((splitOnChar '.' ("abc.".toList)).map pyStrip).filter
          (fun s => !s.isEmpty)).isEmpty = false ∧
        (['.', ',', '!', '?'].any (fun m => ("abc.".toList).contains m)) = true))) :=
  ⟨of_decide_eq_true (by with_unfolding_all rfl),
   claim6_validator_characterization ("abc.".toList)
     (of_decide_eq_true (by with_unfolding_all rfl))⟩

/-- C7. The external model is invoked exactly twice when the first call
yields a validated text whose estimated duration exceeds the video
duration, and exactly once otherwise (transport error, missing choices,
blank or missing content, validation failure, or an in-budget first
candidate) — hence at most twice, and the single retry occurs only on a
duration overrun. -/
theorem claim7_single_retry_bound (d : ℚ) (lang : String)
    (c1 c2 : ApiResult) :
    (generateCommentary d lang c1 c2).modelCalls ≤ 2 ∧
    (generateCommentary d lang c1 c2).modelCalls =
      (if retryTriggered d lang c1 then 2 else 1) := by
  rcases c1 with _ | _ | (_ | t)
  · exact ⟨by simp [generateCommentary], by simp [generateCommentary, retryTriggered]⟩
  · exact ⟨by simp [generateCommentary], by simp [generateCommentary, retryTriggered]⟩
  · exact ⟨by simp [generateCommentary], by simp [generateCommentary, retryTriggered]⟩
  · by_cases hstrip : (pyStrip t).isEmpty
    · constructor <;> simp [generateCommentary, retryTriggered, hstrip]
    · by_cases hval : (analyzeTextForNarration t lang).1
      · by_cases hest : d < estimateSpeechDuration
            (analyzeTextForNarration t lang).2 lang
        · rcases c2 with _ | _ | (_ | t2) <;>
            constructor <;>
            simp [generateCommentary, retryTriggered, hstrip, hval, hest]
        · constructor <;>
            simp [generateCommentary, retryTriggered, hstrip, hval, hest]
      · constructor <;> simp [generateCommentary, retryTriggered, hstrip, hval]

/-- C10. The commentary output file is written exactly once on a
successful run and never on a failure path: the number of file writes is
1 when the run returns a result and 0 when it returns `None`. -/
theorem claim10_file_write_iff_success (d : ℚ) (lang : String)
    (c1 c2 : ApiResult) :
    (generateCommentary d lang c1 c2).fileWrites =
      (if (generateCommentary d lang c1 c2).result.isSome then 1 else 0) := by
  rcases c1 with _ | _ | (_ | t) <;> rcases c2 with _ | _ | (_ | t2) <;>
    simp only [generateCommentary] <;> split_ifs <;> simp_all

/-- C9. Inside `_analyze_text_for_narration`, once the
control-character-stripped text is known to be non-blank, both
character-ratio divisors are positive: the full length used by the
English validator, and the non-whitespace character count used by the
Urdu validator. -/
theorem claim9_no_division_by_zero (text : List Char)
    (h : ¬ (pyStrip (pyClean text)).isEmpty) :
    0 < (pyClean text).length ∧
    0 < ((pyClean text).filter (fun c => !(pyIsSpace c))).length := by
  have hdw : (pyClean text).dropWhile pyIsSpace ≠ [] := by
    intro hnil
    apply h
    simp [pyStrip, hnil]
  have hpos := dropWhile_ne_nil_filter_pos (pyClean text) hdw
  exact ⟨Nat.lt_of_lt_of_le hpos (List.length_filter_le _ _), hpos⟩

/-- Witness for C9 at the concrete text `"abc"`. -/
theorem claim9_witness :
    (¬ (pyStrip (pyClean ("abc".toList))).isEmpty) ∧
    (0 < (pyClean ("abc".toList)).length ∧
     0 < ((pyClean ("abc".toList)).filter (fun c => !(pyIsSpace c))).length) :=
  ⟨of_decide_eq_true (by with_unfolding_all rfl),
   claim9_no_division_by_zero ("abc".toList)
     (of_decide_eq_true (by with_unfolding_all rfl))⟩

/-- C8 counterexample. For the already-formatted text `c8formatted`
(2 break markers), one further formatting pass yields 4 markers and two
further passes yield 8: `format(format(x))` does not have the same
pause-marker density as `format(x)` — re-formatting doubles the marker
count instead of collapsing duplicates. -/
theorem claim8_counterexample :
    countOcc brkOpen (formatForAudio .documentary rngOne
        (formatForAudio .documentary rngOne c8formatted)) ≠
      countOcc brkOpen (formatForAudio .documentary rngOne c8formatted) :=
  of_decide_eq_true (by with_unfolding_all rfl)

/-- C8 (amended). Within a single application the cleanup pass does
collapse an adjacent pair of break markers into one canonical 0.4 s
pause; but the formatter is not density-idempotent: its first character
filter strips the `<`, `>`, `/`, `=` of existing markers, the mangled
remains (`break time"0.4s"`) introduce new period-split boundaries, and
each re-formatting doubles the marker count (2 → 4 → 8 on the concrete
`c8formatted`). -/
theorem claim8_marker_density :
    collapseBreaks
        ("a <break time=\"0.3s\"/> <break time=\"0.4s\"/> b".toList) =
      "a <break time=\"0.4s\"/> b".toList ∧
    countOcc brkOpen c8formatted = 2 ∧
    countOcc brkOpen (formatForAudio .documentary rngOne c8formatted) = 4 ∧
    countOcc brkOpen (formatForAudio .documentary rngOne
      (formatForAudio .documentary rngOne c8formatted)) = 8 :=
  of_decide_eq_true (by with_unfolding_all rfl)

end Step4
